import Mathlib

/-!
Verification of the time-accounting engine of a work-hour tracker.

The engine consists of:
* `parseTime` — parse an `HH:MM` string into minutes since midnight;
* `formatTime` — format a minute count as a zero-padded `HH:MM` string;
* `calcNightMinutes` — count night-bonus minutes of a shift (window
  20:00–06:00), excluding a pause centered at the shift midpoint;
* the total-worked-minutes derivation performed by the form submit handler;
* the monthly and yearly aggregation performed by `renderSummary`.

JavaScript numeric semantics are modelled on `Int`:
* `Math.floor(a / b)` on integers is `Int.fdiv`;
* the `%` remainder operator (sign of the dividend) is `Int.tmod`;
* `Number(s)` and `Number(undefined)` are modelled by `jsNumber` below.
-/

/-- JavaScript `Number(x)` applied to `parts[i]`, where `parts[i]` may be
`undefined` (modelled as `none`); strings are represented by their character
lists.  `Number(undefined)` is `NaN` (`none`); `Number("")` is `0`; a string
of decimal digits converts to its value.  Every other string is modelled as
`NaN`.  This matches JavaScript exactly on the inputs that occur in this
development (strings without sign, whitespace, decimal point, exponent, or
radix markers); richer numeric literal forms such as `"-5"`, `"1e3"`, or
`"0x1f"` do not arise here. -/
def jsNumber : Option (List Char) → Option Int
  | none => none
  | some [] => some 0
  | some cs => if cs.all Char.isDigit
      then some (Int.ofNat (cs.foldl (fun n c => n * 10 + (c.toNat - 48)) 0))
      else none

/-- JavaScript `String.prototype.split` with a single-character separator,
on the character list of the string: `"".split(":")` is `[""]`, and every
occurrence of the separator starts a new (possibly empty) field. -/
def splitOnChar (sep : Char) : List Char → List (List Char)
  | [] => [[]]
  | c :: cs =>
    match splitOnChar sep cs, decide (c = sep) with
    | rest, true => [] :: rest
    | [], false => [[c]]
    | r :: rs, false => (c :: r) :: rs

instance : DecidableEq (Except String Int) := fun x y =>
  match x, y with
  | Except.ok a, Except.ok b =>
    if h : a = b then isTrue (by rw [h])
    else isFalse (fun hh => h (by injection hh))
  | Except.error a, Except.error b =>
    if h : a = b then isTrue (by rw [h])
    else isFalse (fun hh => h (by injection hh))
  | Except.ok _, Except.error _ => isFalse (fun hh => by injection hh)
  | Except.error _, Except.ok _ => isFalse (fun hh => by injection hh)

/-- Function `parseTime` (src/unnamed/part_000 lines 54–60, part_001 lines 2–10):
split on `":"`, convert both parts with `Number`, throw
`"Invalid time format"` unless both are finite. -/
def parseTime (str : String) : Except String Int :=
  let parts := splitOnChar ':' str.data
  match jsNumber parts[0]?, jsNumber parts[1]? with
  | some h, some m => Except.ok (h * 60 + m)
  | _, _ => Except.error "Invalid time format"

/-- JavaScript `String.prototype.padStart(2, "0")`. -/
def padStart2 (s : String) : String :=
  if s.length ≥ 2 then s
  else String.mk (List.replicate (2 - s.length) '0') ++ s

/-- Function `formatTime` (src/unnamed/part_000 lines 62–66, part_001 lines 12–16):
`Math.floor(minutes / 60)` and `minutes % 60`, both zero-padded to width 2. -/
def formatTime (minutes : Int) : String :=
  padStart2 (toString (Int.fdiv minutes 60)) ++ ":" ++
    padStart2 (toString (Int.tmod minutes 60))

/-- The loop body of `calcNightMinutes`: iterate `len` minutes starting at
`start`, skip minutes inside `[ps, pe)`, count minutes whose minute-of-day
(JavaScript `t % 1440`, i.e. `Int.tmod`) is `< 360` or `≥ 1200`. -/
def nightLoop (start : Int) (len : Nat) (ps pe : Int) : Int :=
  (List.range len).foldl
    (fun acc (i : Nat) =>
      if ps ≤ start + (i : Int) ∧ start + (i : Int) < pe then acc
      else if Int.tmod (start + (i : Int)) 1440 < 360 ∨
          1200 ≤ Int.tmod (start + (i : Int)) 1440 then acc + 1
      else acc)
    0

/-- Function `calcNightMinutes` (src/unnamed/part_000 lines 69–84, part_001
lines 19–34): wrap-adjust the end, return 0 for a non-positive length,
otherwise center the pause at the shift midpoint and count night minutes. -/
def calcNightMinutes (start endM pauseMin : Int) : Int :=
  let e := if endM < start then endM + 1440 else endM
  let totalWorked := e - start
  if totalWorked ≤ 0 then 0
  else
    let pauseStart := start + Int.fdiv totalWorked 2 - Int.fdiv pauseMin 2
    let pauseEnd := pauseStart + pauseMin
    nightLoop start totalWorked.toNat pauseStart pauseEnd

/-- The Vacation/Sick/Normal kind of a day entry. -/
inductive EntryType where
  | normal
  | vacation
  | sick
deriving DecidableEq, BEq

/-- Record `Entry` (src/unnamed/part_000 lines 87–92, part_001 lines 37–42). -/
structure Entry where
  date : String
  type : EntryType
  workedMinutes : Int
  nightMinutes : Int

/-- The total-worked-minutes derivation of the form submit handler
(src/unnamed/part_000 lines 636–637, part_003 lines 601–603):
`endMin - startMin - pauseMin`, wrapped by `+1440` when negative. -/
def totalWorkMinutes (startMin endMin pauseMin : Int) : Int :=
  let t := endMin - startMin - pauseMin
  if t < 0 then t + 1440 else t

/-- The Normal-kind entry built by the form submit handler
(src/unnamed/part_000 lines 636–641, part_003 lines 601–610). -/
def mkNormalEntry (date : String) (startMin endMin pauseMin : Int) : Entry :=
  { date := date
    type := EntryType.normal
    workedMinutes := totalWorkMinutes startMin endMin pauseMin
    nightMinutes := calcNightMinutes startMin endMin pauseMin }

/-- The monthly aggregate computed by `renderSummary`
(src/unnamed/part_000 lines 287–300, part_001 lines 207–220). -/
structure MonthlySummary where
  totalWorkedMonth : Int
  totalNightMonth : Int
  daysNormal : Nat
  daysVacation : Nat
  daysSick : Nat
deriving DecidableEq

/-- Function `summarizeMonth`: the month block of `renderSummary`
(src/unnamed/part_000 lines 287–300, part_001 lines 207–220): filter the
entries whose date has the `YYYY-MM` key as 7-character prefix
(`e.date.slice(0, 7) === monthKey`), sum worked and night minutes with
`reduce`, and count each kind with `filter(...).length`. -/
def summarizeMonth (entries : List Entry) (monthKey : String) : MonthlySummary :=
  let monthEntries := entries.filter (fun e => e.date.take 7 == monthKey)
  { totalWorkedMonth := monthEntries.foldl (fun s e => s + e.workedMinutes) 0
    totalNightMonth := monthEntries.foldl (fun s e => s + e.nightMinutes) 0
    daysNormal := (monthEntries.filter (fun e => e.type == EntryType.normal)).length
    daysVacation := (monthEntries.filter (fun e => e.type == EntryType.vacation)).length
    daysSick := (monthEntries.filter (fun e => e.type == EntryType.sick)).length }

/-- Function `summarizeVacation`: the vacation block of `renderSummary`
(src/unnamed/part_000 lines 302–309, part_001 lines 222–229): `used` is the
number of entries whose date has the `YYYY` key as 4-character prefix
(`e.date.slice(0, 4) === yearKey`) and whose kind is Vacation;
`remaining = Math.max(0, allowance - used)`. -/
def summarizeVacation (entries : List Entry) (yearKey : String)
    (allowance : Int) : Int × Int :=
  let yearEntries := entries.filter (fun e => e.date.take 4 == yearKey)
  let used := (yearEntries.filter (fun e => e.type == EntryType.vacation)).length
  (used, max 0 (allowance - (used : Int)))

/-- A concrete entry collection with two Vacation days in 2025, used to
witness the vacation-summary theorem. -/
def vacWitnessEntries : List Entry :=
  [ { date := "2025-02-03", type := EntryType.vacation
      workedMinutes := 480, nightMinutes := 0 },
    { date := "2025-03-04", type := EntryType.vacation
      workedMinutes := 480, nightMinutes := 0 } ]

/-- The wrap-adjusted shift length of spec §4.2 step 1/2:
`end - start`, after adding 1440 to `end` when `end < start`. -/
def wrapAdjustedLen (start endM : Int) : Int :=
  (if endM < start then endM + 1440 else endM) - start

/-- The night-minute count as the specification words it (§4.2 / claim C1):
after the wrap adjustment and the zero-length early return, the number of
integer minutes `t` in `[start, end)` that are not inside
`[pauseStart, pauseEnd)` and whose minute-of-day `t mod 1440` (mathematical
modulus, `Int.emod`) is `< 360` or `≥ 1200`. -/
def specNightCount (start endM pauseMin : Int) : Int :=
  let e := if endM < start then endM + 1440 else endM
  let totalWorked := e - start
  if totalWorked ≤ 0 then 0
  else
    let pauseStart := start + Int.fdiv totalWorked 2 - Int.fdiv pauseMin 2
    let pauseEnd := pauseStart + pauseMin
    Int.ofNat ((List.range totalWorked.toNat).countP (fun (i : Nat) =>
      decide (¬ (pauseStart ≤ start + (i : Int) ∧ start + (i : Int) < pauseEnd) ∧
        (Int.emod (start + (i : Int)) 1440 < 360 ∨
          1200 ≤ Int.emod (start + (i : Int)) 1440))))

/-- Variant of `calcNightMinutes` with the pause window replaced by its intersection
with the shift window `[start, end)` (claim C5's comparison point). -/
def calcNightMinutesClampedPause (start endM pauseMin : Int) : Int :=
  let e := if endM < start then endM + 1440 else endM
  let totalWorked := e - start
  if totalWorked ≤ 0 then 0
  else
    let pauseStart := start + Int.fdiv totalWorked 2 - Int.fdiv pauseMin 2
    let pauseEnd := pauseStart + pauseMin
    nightLoop start totalWorked.toNat (max pauseStart start) (min pauseEnd e)

-- Sanity checks against the spec's worked examples (§8).
example : parseTime "bad" = Except.error "Invalid time format" := by decide
example : parseTime "" = Except.error "Invalid time format" := by decide
example : parseTime ":30" = Except.ok 30 := by decide
example : parseTime "10:" = Except.ok 600 := by decide
example : parseTime "25:99" = Except.ok 1599 := by decide
example : formatTime 83 = "01:23" := by decide
example : calcNightMinutes 1320 1320 0 = 0 := by decide

/-- Folding a skip/count loop body over a list, starting from `a`, yields `a`
plus the number of elements that are not skipped and satisfy the count
condition.  This is the generic shape of the `for` loop in
`calcNightMinutes`. -/
theorem foldl_skip_count {α : Type} (p q : α → Prop) [DecidablePred p]
    [DecidablePred q] (l : List α) (a : Int) :
    l.foldl (fun acc x => if p x then acc else if q x then acc + 1 else acc) a
      = a + ((l.countP fun x => decide (¬ p x ∧ q x)) : Nat) := by
  induction l generalizing a with
  | nil => simp
  | cons x xs ih =>
    simp only [List.foldl_cons, List.countP_cons, ih]
    by_cases hp : p x
    · simp [hp]
    · by_cases hq : q x
      · simp [hp, hq]
        ring
      · simp [hp, hq]

/-- JavaScript's remainder `%` (`Int.tmod`) agrees with the mathematical
modulus (`Int.emod`) on non-negative dividends. -/
theorem tmod1440_eq_emod1440 (a : Int) (h : 0 ≤ a) :
    Int.tmod a 1440 = Int.emod a 1440 := by
  obtain ⟨n, rfl⟩ := Int.eq_ofNat_of_zero_le h
  rfl

/-- The imperative counting loop of `calcNightMinutes` computes the number of
loop indices that survive the pause check and satisfy the night check. -/
theorem nightLoop_eq_countP (start : Int) (len : Nat) (ps pe : Int) :
    nightLoop start len ps pe
      = Int.ofNat ((List.range len).countP fun (i : Nat) =>
          decide (¬ (ps ≤ start + (i : Int) ∧ start + (i : Int) < pe) ∧
            (Int.tmod (start + (i : Int)) 1440 < 360 ∨
              1200 ≤ Int.tmod (start + (i : Int)) 1440))) := by
  unfold nightLoop
  rw [foldl_skip_count
    (fun i : Nat => ps ≤ start + (i : Int) ∧ start + (i : Int) < pe)
    (fun i : Nat => Int.tmod (start + (i : Int)) 1440 < 360 ∨
      1200 ≤ Int.tmod (start + (i : Int)) 1440)]
  simp

/-- The counting loop never counts more than the number of iterated minutes. -/
theorem nightLoop_le (start : Int) (len : Nat) (ps pe : Int) :
    nightLoop start len ps pe ≤ (len : Int) := by
  rw [nightLoop_eq_countP]
  refine le_trans (Int.ofNat_le.mpr (List.countP_le_length _)) ?_
  simp

/-- Replacing the skip window `[ps, pe)` by its intersection with the
iterated window `[start, start + len)` does not change the count. -/
theorem nightLoop_clamp (start : Int) (len : Nat) (ps pe e : Int)
    (he : e = start + (len : Int)) :
    nightLoop start len ps pe = nightLoop start len (max ps start) (min pe e) := by
  rw [nightLoop_eq_countP, nightLoop_eq_countP]
  congr 1
  apply List.countP_congr
  intro i hi
  simp only [List.mem_range] at hi
  simp only [decide_eq_true_eq]
  have hAB : (ps ≤ start + (i : Int) ∧ start + (i : Int) < pe) ↔
      (max ps start ≤ start + (i : Int) ∧ start + (i : Int) < min pe e) := by
    subst he
    constructor
    · rintro ⟨ha, hb⟩
      exact ⟨max_le ha (by omega), lt_min hb (by omega)⟩
    · rintro ⟨ha, hb⟩
      exact ⟨le_trans (le_max_left _ _) ha, lt_of_lt_of_le hb (min_le_left _ _)⟩
  rw [hAB]

/-- C1: `calcNightMinutes` follows the specified algorithm exactly: wrap the
end by 1440 when `end < start`, return 0 when the adjusted length is not
positive, and otherwise count the integer minutes `t` of `[start, end)` that
lie outside the midpoint-centered pause window and whose minute-of-day
`t mod 1440` is `< 360` or `≥ 1200`.  The start minute is a time-of-day
value, hence non-negative (spec §3); on that domain the JavaScript remainder
in the code agrees with the mathematical `mod` used by the specification. -/
theorem calcNightMinutes_follows_spec (start endM pauseMin : Int)
    (h : 0 ≤ start) :
    calcNightMinutes start endM pauseMin = specNightCount start endM pauseMin := by
  simp only [calcNightMinutes, specNightCount]
  split_ifs with hlt hw hw
  all_goals try rfl
  all_goals rw [nightLoop_eq_countP]
  all_goals congr 1
  all_goals apply List.countP_congr
  all_goals intro i hi
  all_goals simp only [List.mem_range] at hi
  all_goals simp only [decide_eq_true_eq]
  all_goals rw [tmod1440_eq_emod1440 (start + (i : Int)) (by omega)]

/-- Witness for C1 at the concrete shift 05:00→05:10 with a 6-minute pause. -/
theorem calcNightMinutes_follows_spec_witness :
    0 ≤ (300 : Int) ∧ calcNightMinutes 300 310 6 = specNightCount 300 310 6 :=
  ⟨by decide, calcNightMinutes_follows_spec 300 310 6 (by decide)⟩

/-- C4: for clock-valued inputs (start and end minutes of day), the result of
`calcNightMinutes` never exceeds the wrap-adjusted shift length
`end - start` (after adding 1440 when `end < start`). -/
theorem calcNightMinutes_le_wrapAdjustedLen (start endM pauseMin : Int)
    (h1 : 0 ≤ endM) (h2 : start ≤ 1439) :
    calcNightMinutes start endM pauseMin ≤ wrapAdjustedLen start endM := by
  simp only [calcNightMinutes, wrapAdjustedLen]
  split_ifs with hlt hw hw
  all_goals try omega
  all_goals exact le_trans (nightLoop_le _ _ _ _) (by omega)

/-- Witness for C4 at the concrete overnight shift 23:50→00:10 with a
4-minute pause. -/
theorem calcNightMinutes_le_wrapAdjustedLen_witness :
    0 ≤ (10 : Int) ∧ (1430 : Int) ≤ 1439 ∧
      calcNightMinutes 1430 10 4 ≤ wrapAdjustedLen 1430 10 :=
  ⟨by decide, by decide,
    calcNightMinutes_le_wrapAdjustedLen 1430 10 4 (by decide) (by decide)⟩

/-- C5: pause minutes that fall outside the shift window have no effect:
`calcNightMinutes` returns the same count as the variant whose pause window
is replaced by its intersection with `[start, end)`.  In particular a pause
larger than the shift excludes only minutes inside the shift. -/
theorem calcNightMinutes_pause_clamped (start endM pauseMin : Int) :
    calcNightMinutes start endM pauseMin
      = calcNightMinutesClampedPause start endM pauseMin := by
  simp only [calcNightMinutes, calcNightMinutesClampedPause]
  split_ifs with hlt hw hw
  all_goals try rfl
  all_goals apply nightLoop_clamp
  all_goals omega

/-- C2 counterexample: the claim says `parseTime` raises InvalidFormat on
each of `"bad"`, `":30"`, `"10:"`, `""`; in fact `":30"` and `"10:"` do not
throw — JavaScript `Number("")` is `0`, which is finite — so they parse to
30 and 600 minutes respectively, refuting the claim. -/
theorem parseTime_partial_inputs_do_not_throw :
    parseTime ":30" = Except.ok 30 ∧ parseTime "10:" = Except.ok 600 :=
  ⟨by decide, by decide⟩

/-- C2 (amended): `parseTime` raises the InvalidFormat error on `"bad"` and
`""`, but accepts `":30"` (as 30 minutes) and `"10:"` (as 600 minutes),
because an empty part converts to the finite number 0. -/
theorem parseTime_invalid_inputs :
    parseTime "bad" = Except.error "Invalid time format"
      ∧ parseTime "" = Except.error "Invalid time format"
      ∧ parseTime ":30" = Except.ok 30
      ∧ parseTime "10:" = Except.ok 600 :=
  ⟨by decide, by decide, by decide, by decide⟩

/-- C9: `parseTime` does not validate clock-value ranges: `"25:99"` is
accepted without error and parses to `25 * 60 + 99 = 1599` minutes. -/
theorem parseTime_no_range_validation :
    parseTime "25:99" = Except.ok 1599 := by decide

/-- C6: the `workedMinutes` stored for a Normal entry by the form submit
handler equals `endMinute - startMinute - pauseMinutes`, with 1440 added
exactly when that difference is negative. -/
theorem mkNormalEntry_workedMinutes (date : String)
    (startMin endMin pauseMin : Int) :
    (mkNormalEntry date startMin endMin pauseMin).workedMinutes
      = (if endMin - startMin - pauseMin < 0
          then endMin - startMin - pauseMin + 1440
          else endMin - startMin - pauseMin) := rfl

/-- C8: the monthly summary of an empty entry collection is all zeros: zero
total worked minutes, zero total night minutes, and zero counts for each of
the Normal, Vacation, and Sick kinds. -/
theorem summarizeMonth_empty (monthKey : String) :
    summarizeMonth [] monthKey
      = { totalWorkedMonth := 0, totalNightMonth := 0,
          daysNormal := 0, daysVacation := 0, daysSick := 0 } := rfl

/-- The derived Boolean equality on `EntryType` agrees with decidable
propositional equality. -/
theorem entryType_beq_eq (a b : EntryType) : (a == b) = decide (a = b) := by
  cases a <;> cases b <;> rfl

/-- Any list of entries splits exactly into its Normal, Vacation, and Sick
members (every entry has exactly one of the three kinds). -/
theorem filter_three_kinds_length (l : List Entry) :
    (l.filter (fun e => e.type == EntryType.normal)).length
      + (l.filter (fun e => e.type == EntryType.vacation)).length
      + (l.filter (fun e => e.type == EntryType.sick)).length
      = l.length := by
  induction l with
  | nil => rfl
  | cons e l ih =>
    cases he : e.type <;>
      simp [List.filter_cons, he,
        show (EntryType.normal == EntryType.normal) = true from rfl,
        show (EntryType.normal == EntryType.vacation) = false from rfl,
        show (EntryType.normal == EntryType.sick) = false from rfl,
        show (EntryType.vacation == EntryType.normal) = false from rfl,
        show (EntryType.vacation == EntryType.vacation) = true from rfl,
        show (EntryType.vacation == EntryType.sick) = false from rfl,
        show (EntryType.sick == EntryType.normal) = false from rfl,
        show (EntryType.sick == EntryType.vacation) = false from rfl,
        show (EntryType.sick == EntryType.sick) = true from rfl] <;> omega

/-- Filtering twice in sequence counts the entries satisfying both
predicates. -/
theorem length_filter_filter (l : List Entry) (p q : Entry → Bool) :
    ((l.filter p).filter q).length = l.countP (fun e => p e && q e) := by
  rw [← List.countP_eq_length_filter, List.countP_filter]
  apply List.countP_congr
  intro x _
  simp [Bool.and_comm]

/-- C10: in the monthly summary every entry of the selected month is counted
in exactly one kind bucket, so the Normal, Vacation, and Sick day counts sum
to the number of entries of that month. -/
theorem summarizeMonth_counts_partition (entries : List Entry)
    (monthKey : String) :
    (summarizeMonth entries monthKey).daysNormal
      + (summarizeMonth entries monthKey).daysVacation
      + (summarizeMonth entries monthKey).daysSick
      = (entries.filter (fun e => e.date.take 7 == monthKey)).length := by
  simp only [summarizeMonth]
  exact filter_three_kinds_length _

/-- C7: `summarizeVacation` yields `used` equal to the number of
Vacation-kind entries whose date lies in the given year, and
`remaining = max 0 (allowance - used)`, which is never negative, even when
`used` exceeds the allowance. -/
theorem summarizeVacation_spec (entries : List Entry) (yearKey : String)
    (allowance : Int) (_hall : 0 ≤ allowance) :
    (summarizeVacation entries yearKey allowance).1
        = ((entries.countP fun e => e.date.take 4 == yearKey
            && e.type == EntryType.vacation) : Int)
      ∧ (summarizeVacation entries yearKey allowance).2
          = max 0 (allowance - (summarizeVacation entries yearKey allowance).1)
      ∧ 0 ≤ (summarizeVacation entries yearKey allowance).2 := by
  refine ⟨?_, rfl, le_max_left _ _⟩
  simp only [summarizeVacation]
  exact_mod_cast length_filter_filter entries
    (fun e => e.date.take 4 == yearKey)
    (fun e => e.type == EntryType.vacation)

/-- Witness for C7: two Vacation days in 2025 against an allowance of 1:
used is 2 and remaining is `max 0 (1 - 2) = 0`, not negative. -/
theorem summarizeVacation_spec_witness :
    0 ≤ (1 : Int) ∧
      ((summarizeVacation vacWitnessEntries "2025" 1).1
          = ((vacWitnessEntries.countP fun e => e.date.take 4 == "2025"
              && e.type == EntryType.vacation) : Int)
        ∧ (summarizeVacation vacWitnessEntries "2025" 1).2
            = max 0 (1 - (summarizeVacation vacWitnessEntries "2025" 1).1)
        ∧ 0 ≤ (summarizeVacation vacWitnessEntries "2025" 1).2) :=
  ⟨by decide, summarizeVacation_spec vacWitnessEntries "2025" 1 (by decide)⟩

set_option maxRecDepth 4000 in
/-- Exhaustive check: every clock value `60*h + r` with `h < 24` and `r < 60`
round-trips through `formatTime` and then `parseTime`. -/
theorem roundTrip_enum : ∀ h : Nat, h < 24 → ∀ r : Nat, r < 60 →
    parseTime (formatTime ((60 * h + r : Nat) : Int))
      = Except.ok ((60 * h + r : Nat) : Int) := by decide

/-- C3: round-trip — for every integer `m` in `[0, 1439]`, `parseTime`
applied to `formatTime m` returns `m`. -/
theorem parseTime_formatTime_roundTrip (m : Nat) (hm : m ≤ 1439) :
    parseTime (formatTime (m : Int)) = Except.ok (m : Int) := by
  have h1 : m / 60 < 24 := by omega
  have h2 : m % 60 < 60 := by omega
  have h3 := roundTrip_enum (m / 60) h1 (m % 60) h2
  have hme : 60 * (m / 60) + m % 60 = m := Nat.div_add_mod m 60
  rw [hme] at h3
  exact h3

/-- Witness for C3 at the concrete value 83 (formatted as `"01:23"`). -/
theorem parseTime_formatTime_roundTrip_witness :
    (83 : Nat) ≤ 1439 ∧
      parseTime (formatTime ((83 : Nat) : Int))
        = Except.ok ((83 : Nat) : Int) :=
  ⟨by decide, parseTime_formatTime_roundTrip 83 (by decide)⟩
